import Mathlib

/-!
Shallow embedding of the repository file
src/goodreads-analytics/src/goodreads_analytics/goodreads_analytics.py
(class GoodreadsAnalytics), for checking its specification.

Modelling conventions.

* Python floats are modelled as rationals; a pandas NaN cell is modelled as
  none of Option.
* A numeric DataFrame cell (Number of Pages, My Rating) is modelled
  post-parse: some q is a cell that pd.to_numeric with the coerce policy
  turns into the number q, none is a missing or unparseable cell.
* str.lower, str.strip and str.split are modelled character-wise on
  String.data; faithful for the ASCII data these columns hold.
* Column presence is table-level: hasBookshelves says whether the source
  column Bookshelves exists, hasShelvesList whether the derived column
  bookshelves_list was created.  Reading an absent column from a pandas
  DataFrame raises KeyError; that is the Except error branch of each query.
* Every query returns a pair of its result and the DataFrame after the
  call.  Pandas boolean-mask indexing materialises a fresh frame, so the
  assignment to the My Rating column inside top_rated_books_on_shelf lands
  on that fresh frame and self.df is never written after construction;
  each exit of each embedded query therefore returns the incoming frame.
-/

namespace Goodreads

/-- Python str.lower, character-wise (ASCII-faithful). -/
def lower (s : String) : String := ⟨s.data.map Char.toLower⟩

/-- Python str.strip: drop whitespace from both ends of the string. -/
def pyStrip (s : String) : String :=
  ⟨((s.data.dropWhile Char.isWhitespace).reverse.dropWhile Char.isWhitespace).reverse⟩

/-- Python x.split with a one-comma separator, on the character list: split
at every comma, keeping empty segments; the empty string yields one empty
segment. -/
def pySplitCommaChars : List Char → List (List Char)
  | [] => [[]]
  | ',' :: cs => [] :: pySplitCommaChars cs
  | c :: cs =>
    match pySplitCommaChars cs with
    | [] => [[c]]
    | t :: ts => (c :: t) :: ts

/-- Python x.split with a one-comma separator, on strings. -/
def pySplitComma (s : String) : List String :=
  (pySplitCommaChars s.data).map (fun l => ⟨l⟩)

/-- One attempt of the regex engine to match the position-marker pattern
(a space, an opening parenthesis, a hash, one or more digits, a closing
parenthesis) at the head of the character list; on success, returns the
characters after the match. -/
def matchMarker : List Char → Option (List Char)
  | ' ' :: '(' :: '#' :: rest =>
    if (rest.takeWhile Char.isDigit).isEmpty then none
    else
      match rest.dropWhile Char.isDigit with
      | ')' :: rest2 => some rest2
      | _ => none
  | _ => none

/-- Left-to-right scan of re.sub with an empty replacement: at each
position try the marker pattern; on a match drop it and continue after it,
otherwise keep the character and move on.  Fuel equal to the length of the
list is always enough, since every step consumes at least one character. -/
def stripMarkersGo : Nat → List Char → List Char
  | 0, cs => cs
  | _ + 1, [] => []
  | fuel + 1, c :: cs =>
    match matchMarker (c :: cs) with
    | some rest2 => stripMarkersGo fuel rest2
    | none => c :: stripMarkersGo fuel cs

/-- Embedding of re.sub removing every occurrence of the position-marker
pattern from a string. -/
def pyReSubMarker (s : String) : String :=
  ⟨stripMarkersGo s.data.length s.data⟩

/-- True when the marker pattern matches at no position of the list. -/
def noMarker (cs : List Char) : Bool :=
  cs.tails.all (fun t => (matchMarker t).isNone)

/-- One row of the source DataFrame, before _clean_bookshelves runs. -/
structure RawRow where
  title : String
  author : String
  numberOfPages : Option ℚ
  myRating : Option ℚ
  bookshelves : Option String
  bookshelvesWithPositions : Option String
deriving DecidableEq

/-- The source DataFrame: rows plus column-presence flags. -/
structure RawFrame where
  rows : List RawRow
  hasBookshelves : Bool
  hasBookshelvesWithPositions : Bool
deriving DecidableEq

/-- One row after _clean_bookshelves added the derived list columns. -/
structure Row where
  title : String
  author : String
  numberOfPages : Option ℚ
  myRating : Option ℚ
  bookshelves_list : List String
  bookshelves_positions_list : List String
deriving DecidableEq

/-- The DataFrame held by the analytics object after construction;
hasShelvesList says whether the derived column bookshelves_list exists
(it is created only when the raw column Bookshelves exists, lines 27-30). -/
structure DF where
  rows : List Row
  hasShelvesList : Bool
  hasShelvesPosList : Bool
deriving DecidableEq

/-- Embedding of lines 28-30: fillna with the empty string, then for a
truthy (nonempty) string split on commas and strip each token; a falsy
(empty) string gives the empty list. -/
def cleanBookshelvesCell (cell : Option String) : List String :=
  let x := cell.getD ""
  if x = "" then [] else (pySplitComma x).map pyStrip

/-- Embedding of lines 34-36: as cleanBookshelvesCell, but re.sub also
removes every occurrence of the position marker from each stripped token. -/
def cleanBookshelvesPosCell (cell : Option String) : List String :=
  let x := cell.getD ""
  if x = "" then []
  else (pySplitComma x).map (fun shelf => pyReSubMarker (pyStrip shelf))

/-- Embedding of _clean_bookshelves (lines 24-36): each derived list column
is created exactly when its raw column exists in the source frame. -/
def _clean_bookshelves (t : RawFrame) : DF :=
  { rows := t.rows.map (fun r =>
      { title := r.title
        author := r.author
        numberOfPages := r.numberOfPages
        myRating := r.myRating
        bookshelves_list :=
          if t.hasBookshelves then cleanBookshelvesCell r.bookshelves else []
        bookshelves_positions_list :=
          if t.hasBookshelvesWithPositions then
            cleanBookshelvesPosCell r.bookshelvesWithPositions
          else [] })
    hasShelvesList := t.hasBookshelves
    hasShelvesPosList := t.hasBookshelvesWithPositions }

/-- The KeyError raised by self.df when the bookshelves_list column was
never created. -/
def keyErrorBookshelves : String := "KeyError: bookshelves_list"

/-- pd.to_numeric with the coerce policy, acting on a cell that is already
modelled post-parse: the identity on Option ℚ. -/
def to_numeric (v : Option ℚ) : Option ℚ := v

/-- The membership test of lines 50-52 and 58-60: some shelf of the row
equals the query shelf after lowering both sides. -/
def overlapMem (shelf : String) (r : Row) : Bool :=
  r.bookshelves_list.any (fun s => lower shelf == lower s)

/-- The membership test of lines 80, 136: the lowered query shelf occurs in
the list of lowered shelf names of the row. -/
def shelfMem (shelf : String) (r : Row) : Bool :=
  (r.bookshelves_list.map lower).contains (lower shelf)

/-- Embedding of shelf_overlap_percentage (lines 38-65). -/
def shelf_overlap_percentage (df : DF) (shelf1 shelf2 : String) :
    Except String ℚ × DF :=
  if df.hasShelvesList then
    let shelf1_books := df.rows.filter (overlapMem shelf1)
    if shelf1_books.length = 0 then (Except.ok 0, df)
    else
      let shelf1_and_shelf2_books := shelf1_books.filter (overlapMem shelf2)
      (Except.ok
        (((shelf1_and_shelf2_books.length : ℚ) / (shelf1_books.length : ℚ)) * 100), df)
  else (Except.error keyErrorBookshelves, df)

/-- The page statistics dictionary of average_pages_on_shelf. -/
structure PageStats where
  min_pages : ℚ
  max_pages : ℚ
  median_pages : ℚ
  total_books : ℕ
  total_pages : ℚ
deriving DecidableEq

/-- pandas Series.min on a nonempty series of rationals. -/
def listMin : List ℚ → ℚ
  | [] => 0
  | x :: xs => xs.foldl min x

/-- pandas Series.max on a nonempty series of rationals. -/
def listMax : List ℚ → ℚ
  | [] => 0
  | x :: xs => xs.foldl max x

/-- pandas Series.median: sort the values; take the middle one, or the mean
of the two middle ones when the count is even. -/
def listMedian (l : List ℚ) : ℚ :=
  let s := List.insertionSort (fun a b => a ≤ b) l
  let n := s.length
  if n = 0 then 0
  else if n % 2 = 1 then s.getD (n / 2) 0
  else (s.getD (n / 2 - 1) 0 + s.getD (n / 2) 0) / 2

/-- The selection of lines 80-86: rows on the shelf, optionally restricted
to rows that are also on the read shelf (the literal read is written
lowercase in the source and compared against lowered shelf names). -/
def apShelfBooks (df : DF) (shelf : String) (only_read : Bool) : List Row :=
  let shelf_books := df.rows.filter (shelfMem shelf)
  if only_read then
    shelf_books.filter (fun r => (r.bookshelves_list.map lower).contains "read")
  else shelf_books

/-- Lines 97-101: the parseable page counts of the selected rows (the
to_numeric coercion followed by dropna keeps exactly the parseable
cells). -/
def apPages (df : DF) (shelf : String) (only_read : Bool) : List ℚ :=
  (apShelfBooks df shelf only_read).filterMap (fun r => to_numeric r.numberOfPages)

/-- Embedding of average_pages_on_shelf (lines 67-124). -/
def average_pages_on_shelf (df : DF) (shelf : String) (only_read : Bool) :
    Except String (ℚ × PageStats) × DF :=
  if df.hasShelvesList then
    let shelf_books := apShelfBooks df shelf only_read
    if shelf_books.length = 0 then
      (Except.ok (0, ⟨0, 0, 0, 0, 0⟩), df)
    else
      let pages := shelf_books.filterMap (fun r => to_numeric r.numberOfPages)
      if pages.length = 0 then
        (Except.ok (0, ⟨0, 0, 0, shelf_books.length, 0⟩), df)
      else
        (Except.ok (pages.sum / (pages.length : ℚ),
          ⟨listMin pages, listMax pages, listMedian pages,
            shelf_books.length, pages.sum⟩), df)
  else (Except.error keyErrorBookshelves, df)

/-- Embedding of get_shelf_books (lines 126-136). -/
def get_shelf_books (df : DF) (shelf : String) : Except String (List Row) × DF :=
  if df.hasShelvesList then
    (Except.ok (df.rows.filter (shelfMem shelf)), df)
  else (Except.error keyErrorBookshelves, df)

/-- Key comparison of sort_values on My Rating with ascending False and the
default na_position last: larger ratings first, missing ratings last. -/
def ratingDescLe (a b : Row) : Bool :=
  match a.myRating, b.myRating with
  | some x, some y => decide (y ≤ x)
  | some _, none => true
  | none, some _ => false
  | none, none => true

/-- Embedding of top_rated_books_on_shelf (lines 138-161).  The My Rating
assignment of line 152 happens on the frame returned by get_shelf_books,
which pandas boolean indexing creates as a new frame, so self.df is never
written.  The source sorts with the pandas default quicksort, whose order
among equal ratings is unspecified; this embedding realises one admissible
order (the stable one). -/
def top_rated_books_on_shelf (df : DF) (shelf : String) (n : ℕ) :
    Except String (List (String × String × Option ℚ)) × DF :=
  match (get_shelf_books df shelf).1 with
  | Except.error e => (Except.error e, df)
  | Except.ok sb =>
    let shelf_books := sb.map (fun r => { r with myRating := to_numeric r.myRating })
    let top_books :=
      (List.insertionSort (fun a b => ratingDescLe a b = true) shelf_books).take n
    (Except.ok (top_books.map (fun r => (r.title, r.author, r.myRating))), df)

/-- The statistics dictionary of reading_stats. -/
structure Stats where
  total_books : ℕ
  books_read : ℕ
  books_to_read : ℕ
  avg_rating : Option ℚ
  rating_distribution : List (ℚ × ℕ)
  percent_read : ℚ
deriving DecidableEq

/-- Line 171: rows whose shelves contain read. -/
def readRows (df : DF) : List Row :=
  df.rows.filter (fun r => (r.bookshelves_list.map lower).contains "read")

/-- Line 174: rows whose shelves contain to-read. -/
def toReadRows (df : DF) : List Row :=
  df.rows.filter (fun r => (r.bookshelves_list.map lower).contains "to-read")

/-- Lines 177-178: the numeric My Rating values of the read rows restricted
to positive values.  A NaN compares false against 0 in pandas, so missing
cells drop out of the positive restriction exactly as filterMap drops
none. -/
def ratedRatings (df : DF) : List ℚ :=
  ((readRows df).filterMap (fun r => to_numeric r.myRating)).filter
    (fun q => decide (0 < q))

/-- Line 181, value_counts followed by sort_index: the distinct values in
ascending order, each paired with its number of occurrences. -/
def value_counts_sort_index (l : List ℚ) : List (ℚ × ℕ) :=
  (List.insertionSort (fun a b => a ≤ b) l.dedup).map (fun v => (v, l.count v))

/-- Embedding of reading_stats (lines 163-193).  The mean of an empty
pandas series is NaN, modelled as none. -/
def reading_stats (df : DF) : Except String Stats × DF :=
  if df.hasShelvesList then
    let read_books := readRows df
    let rated := ratedRatings df
    (Except.ok
      { total_books := df.rows.length
        books_read := read_books.length
        books_to_read := (toReadRows df).length
        avg_rating :=
          if rated.length = 0 then none
          else some (rated.sum / (rated.length : ℚ))
        rating_distribution := value_counts_sort_index rated
        percent_read :=
          if 0 < df.rows.length then
            ((read_books.length : ℚ) / (df.rows.length : ℚ)) * 100
          else 0 }, df)
  else (Except.error keyErrorBookshelves, df)

/-- The token transformation of line 35: strip, then remove every
occurrence of the position marker. -/
def cleanPosToken (shelf : String) : String := pyReSubMarker (pyStrip shelf)

/-- Convenience constructor for concrete rows in witnesses. -/
def mkRow (title author : String) (pages rating : Option ℚ)
    (shelves : List String) : Row :=
  { title := title, author := author, numberOfPages := pages,
    myRating := rating, bookshelves_list := shelves,
    bookshelves_positions_list := [] }

/-- A two-row concrete table used by several witnesses. -/
def dfEx : DF :=
  { rows := [mkRow "A" "a" (some 100) (some 5) ["x", "read"],
             mkRow "B" "b" none (some 4) ["x"]],
    hasShelvesList := true, hasShelvesPosList := false }

/-- A one-row concrete table whose raw Bookshelves value had a trailing
comma, so its shelf list contains the empty string. -/
def dfC10 : DF :=
  { rows := [{ title := "C", author := "c", numberOfPages := none,
               myRating := none,
               bookshelves_list := cleanBookshelvesCell (some "a,"),
               bookshelves_positions_list := [] }],
    hasShelvesList := true, hasShelvesPosList := false }

/-- A one-row source frame that lacks the raw Bookshelves column. -/
def rawNoShelves : RawFrame :=
  { rows := [{ title := "T", author := "U", numberOfPages := some 10,
               myRating := some 3, bookshelves := none,
               bookshelvesWithPositions := none }],
    hasBookshelves := false, hasBookshelvesWithPositions := false }

/-!  Helper lemmas. -/

theorem mk_data (s : String) : String.mk s.data = s := by
  cases s
  rfl

theorem lower_eq_empty_iff (s : String) : lower s = "" ↔ s = "" := by
  constructor
  · intro h
    have hd : s.data.map Char.toLower = [] := congrArg String.data h
    have hnil : s.data = [] := List.map_eq_nil_iff.mp hd
    cases s
    cases hnil
    rfl
  · intro h
    subst h
    rfl

theorem shelfMem_iff (shelf : String) (r : Row) :
    shelfMem shelf r = true ↔ ∃ t ∈ r.bookshelves_list, lower t = lower shelf := by
  simp [shelfMem, List.contains, List.elem_iff, List.mem_map]

theorem overlapMem_iff (shelf : String) (r : Row) :
    overlapMem shelf r = true ↔ ∃ t ∈ r.bookshelves_list, lower shelf = lower t := by
  simp [overlapMem, List.any_eq_true, beq_iff_eq]

theorem noMarker_cons (c : Char) (cs : List Char) (h : noMarker (c :: cs) = true) :
    (matchMarker (c :: cs)).isNone = true ∧ noMarker cs = true := by
  unfold noMarker at h ⊢
  rw [List.tails_cons, List.all_cons, Bool.and_eq_true] at h
  exact h

theorem stripMarkersGo_of_noMarker :
    ∀ (fuel : ℕ) (cs : List Char), noMarker cs = true → stripMarkersGo fuel cs = cs
  | 0, _, _ => rfl
  | _ + 1, [], _ => rfl
  | fuel + 1, c :: cs, h => by
    have h1 := noMarker_cons c cs h
    have hnone : matchMarker (c :: cs) = none := Option.isNone_iff_eq_none.mp h1.1
    simp only [stripMarkersGo, hnone]
    exact congrArg (c :: ·) (stripMarkersGo_of_noMarker fuel cs h1.2)

/-!  Claims. -/

/-- C1, counterexample: the claim says a token that does not end in a
position-marker suffix passes through normalization unchanged, but the
source removes the marker pattern at every position (re.sub with an
unanchored pattern), so the token a (#1) b, which does not end in the
suffix, is still rewritten to a b. -/
theorem C1_counterexample :
    cleanBookshelvesPosCell (some "a (#1) b") = ["a b"] ∧
    cleanBookshelvesPosCell (some "a (#1) b") ≠ ["a (#1) b"] := by
  constructor
  · decide
  · decide

/-- C1, amended: for every token of the raw string, normalization strips
surrounding whitespace and then removes every occurrence (not only a
trailing one) of the pattern space, opening parenthesis, hash, one or more
digits, closing parenthesis; a token containing no such occurrence passes
through (stripped) unchanged, and the raw value of the spec scenario
normalizes to the claimed shelves. -/
theorem C1_amended_thm :
    (∀ shelf : String, noMarker (pyStrip shelf).data = true →
      cleanPosToken shelf = pyStrip shelf) ∧
    cleanPosToken "a (#1) b" = "a b" ∧
    cleanBookshelvesPosCell (some "currently-reading (#3), read") =
      ["currently-reading", "read"] := by
  refine ⟨?_, by decide, by decide⟩
  intro shelf hm
  unfold cleanPosToken pyReSubMarker
  rw [stripMarkersGo_of_noMarker _ _ hm]

/-- C1, witness for the amended theorem at a concrete marker-free token. -/
theorem C1_amended_witness :
    noMarker (pyStrip " fiction ").data = true ∧
    cleanPosToken " fiction " = pyStrip " fiction " :=
  ⟨by decide, C1_amended_thm.1 " fiction " (by decide)⟩

/-- C7: the Shelf Normalizer maps a missing cell and the empty string to
the empty list (never to a list holding one empty string), and splits any
nonempty raw string at every comma, stripping surrounding whitespace from
each token. -/
theorem C7_thm :
    cleanBookshelvesCell none = [] ∧
    cleanBookshelvesCell (some "") = [] ∧
    cleanBookshelvesCell (some "") ≠ [""] ∧
    (∀ s : String, s ≠ "" →
      cleanBookshelvesCell (some s) = (pySplitComma s).map pyStrip) := by
  refine ⟨rfl, rfl, by decide, ?_⟩
  intro s hs
  unfold cleanBookshelvesCell
  simp [hs]

/-- C7, witness at a concrete raw string with whitespace around tokens. -/
theorem C7_witness :
    (" a , b" : String) ≠ "" ∧
    cleanBookshelvesCell (some " a , b") = (pySplitComma " a , b").map pyStrip ∧
    cleanBookshelvesCell (some " a , b") = ["a", "b"] :=
  ⟨by decide, C7_thm.2.2.2 " a , b" (by decide), by decide⟩

/-- C10: a nonempty raw Bookshelves string with a segment that strips to
nothing (trailing comma, consecutive commas, or a whitespace-only segment)
normalizes to a list containing the empty string, and get_shelf_books with
the empty string selects exactly the records whose shelf list contains the
empty string. -/
theorem C10_thm (s : String) (hs : s ≠ "") (t : String)
    (ht : t ∈ pySplitComma s) (htrim : pyStrip t = "")
    (df : DF) (h : df.hasShelvesList = true) :
    "" ∈ cleanBookshelvesCell (some s) ∧
    (get_shelf_books df "").1 =
      Except.ok (df.rows.filter (fun r => decide ("" ∈ r.bookshelves_list))) := by
  constructor
  · unfold cleanBookshelvesCell
    simp only [Option.getD_some]
    rw [if_neg hs]
    have hmem : pyStrip t ∈ (pySplitComma s).map pyStrip :=
      List.mem_map_of_mem pyStrip ht
    rwa [htrim] at hmem
  · unfold get_shelf_books
    rw [h]
    simp only [if_true]
    have hflt : df.rows.filter (shelfMem "") =
        df.rows.filter (fun r => decide ("" ∈ r.bookshelves_list)) := by
      apply List.filter_congr
      intro r _
      rw [Bool.eq_iff_iff]
      rw [shelfMem_iff]
      simp only [decide_eq_true_eq]
      constructor
      · rintro ⟨u, hu, hlu⟩
        have : u = "" := (lower_eq_empty_iff u).mp hlu
        exact this ▸ hu
      · intro hmem
        exact ⟨"", hmem, rfl⟩
    rw [hflt]

/-- C10, witness: the raw value with a trailing comma, and a one-row table
derived from it. -/
theorem C10_witness :
    ("a," : String) ≠ "" ∧ ("" : String) ∈ pySplitComma "a," ∧ pyStrip "" = "" ∧
    dfC10.hasShelvesList = true ∧
    ("" : String) ∈ cleanBookshelvesCell (some "a,") ∧
    (get_shelf_books dfC10 "").1 =
      Except.ok (dfC10.rows.filter (fun r => decide ("" ∈ r.bookshelves_list))) := by
  have h := C10_thm "a," (by decide) "" (by decide) (by decide) dfC10 rfl
  exact ⟨by decide, by decide, by decide, rfl, h.1, h.2⟩

/-- C3, counterexample: on a table whose source has no raw Bookshelves
column the claim predicts empty-shelf-set behaviour (here, a 0 overlap),
but the derived bookshelves_list column was never created and the query
raises KeyError. -/
theorem C3_counterexample :
    (shelf_overlap_percentage (_clean_bookshelves rawNoShelves) "a" "b").1 =
      Except.error keyErrorBookshelves ∧
    (shelf_overlap_percentage (_clean_bookshelves rawNoShelves) "a" "b").1 ≠
      Except.ok 0 := by
  refine ⟨rfl, ?_⟩
  have h1 : (shelf_overlap_percentage (_clean_bookshelves rawNoShelves) "a" "b").1 =
      Except.error keyErrorBookshelves := rfl
  rw [h1]
  simp

/-- C3, amended: for every source frame lacking the raw Bookshelves column,
the derived bookshelves_list column is not created and every Query Engine
operation that consumes it raises KeyError instead of treating every shelf
set as empty. -/
theorem C3_amended_thm (t : RawFrame) (h : t.hasBookshelves = false)
    (shelf1 shelf2 shelf : String) (n : ℕ) (only_read : Bool) :
    (_clean_bookshelves t).hasShelvesList = false ∧
    (shelf_overlap_percentage (_clean_bookshelves t) shelf1 shelf2).1 =
      Except.error keyErrorBookshelves ∧
    (average_pages_on_shelf (_clean_bookshelves t) shelf only_read).1 =
      Except.error keyErrorBookshelves ∧
    (get_shelf_books (_clean_bookshelves t) shelf).1 =
      Except.error keyErrorBookshelves ∧
    (top_rated_books_on_shelf (_clean_bookshelves t) shelf n).1 =
      Except.error keyErrorBookshelves ∧
    (reading_stats (_clean_bookshelves t)).1 =
      Except.error keyErrorBookshelves := by
  have hdf : (_clean_bookshelves t).hasShelvesList = false := h
  refine ⟨hdf, ?_, ?_, ?_, ?_, ?_⟩ <;>
    simp [shelf_overlap_percentage, average_pages_on_shelf, get_shelf_books,
      top_rated_books_on_shelf, reading_stats, hdf]

/-- C3, witness for the amended theorem at the concrete shelf-less frame. -/
theorem C3_amended_witness :
    rawNoShelves.hasBookshelves = false ∧
    (reading_stats (_clean_bookshelves rawNoShelves)).1 =
      Except.error keyErrorBookshelves :=
  ⟨rfl, (C3_amended_thm rawNoShelves rfl "a" "b" "c" 1 false).2.2.2.2.2⟩

/-- C4: with the derived column present, shelf_overlap_percentage returns
exactly 0 when no record is on shelf1 (case-insensitive exact match), and
otherwise 100 times the number of shelf1 records also on shelf2 divided by
the number of shelf1 records, with no rounding. -/
theorem C4_thm (df : DF) (shelf1 shelf2 : String) (h : df.hasShelvesList = true) :
    ((∀ r ∈ df.rows, overlapMem shelf1 r = false) →
      (shelf_overlap_percentage df shelf1 shelf2).1 = Except.ok 0) ∧
    (df.rows.filter (overlapMem shelf1) ≠ [] →
      (shelf_overlap_percentage df shelf1 shelf2).1 =
        Except.ok (100 *
          (((df.rows.filter (overlapMem shelf1)).filter (overlapMem shelf2)).length : ℚ) /
          ((df.rows.filter (overlapMem shelf1)).length : ℚ))) := by
  constructor
  · intro hnone
    have hnil : df.rows.filter (overlapMem shelf1) = [] := by
      rw [List.filter_eq_nil_iff]
      intro r hr
      simp [hnone r hr]
    simp [shelf_overlap_percentage, h, hnil]
  · intro hne
    have hlen : ¬(df.rows.filter (overlapMem shelf1)).length = 0 := by
      simpa [List.length_eq_zero] using hne
    simp only [shelf_overlap_percentage, h, if_true, hlen, if_false]
    show Except.ok _ = Except.ok _
    congr 1
    ring

/-- C4, witness: on the concrete table both branches are exercised, the
empty one through a shelf that occurs nowhere. -/
theorem C4_witness :
    dfEx.hasShelvesList = true ∧
    (∀ r ∈ dfEx.rows, overlapMem "nowhere" r = false) ∧
    (shelf_overlap_percentage dfEx "nowhere" "read").1 = Except.ok 0 ∧
    dfEx.rows.filter (overlapMem "x") ≠ [] ∧
    (shelf_overlap_percentage dfEx "x" "read").1 =
      Except.ok (100 *
        (((dfEx.rows.filter (overlapMem "x")).filter (overlapMem "read")).length : ℚ) /
        ((dfEx.rows.filter (overlapMem "x")).length : ℚ)) := by
  refine ⟨rfl, by decide, ?_, by decide, ?_⟩
  · exact (C4_thm dfEx "nowhere" "read" rfl).1 (by decide)
  · exact (C4_thm dfEx "x" "read" rfl).2 (by decide)

/-- C9: with the derived column present, for a table in which no record
lists a shelf twice and a shelf having at least one member record,
shelf_overlap_percentage of the shelf against itself is exactly 100. -/
theorem C9_thm (df : DF) (shelf : String) (h : df.hasShelvesList = true)
    (_hnodup : ∀ r ∈ df.rows, r.bookshelves_list.Nodup)
    (r0 : Row) (hr0 : r0 ∈ df.rows) (hmem : overlapMem shelf r0 = true) :
    (shelf_overlap_percentage df shelf shelf).1 = Except.ok 100 := by
  have hne : df.rows.filter (overlapMem shelf) ≠ [] := by
    intro hnil
    rw [List.filter_eq_nil_iff] at hnil
    exact (hnil r0 hr0) hmem
  have hlen : (df.rows.filter (overlapMem shelf)).length ≠ 0 := by
    simpa [List.length_eq_zero] using hne
  simp only [shelf_overlap_percentage, h, if_true, if_neg hlen]
  rw [List.filter_filter]
  simp only [Bool.and_self]
  have hcast : ((df.rows.filter (overlapMem shelf)).length : ℚ) ≠ 0 := by
    exact_mod_cast hlen
  rw [div_self hcast, one_mul]

/-- C9, witness at the concrete table and the shelf x. -/
theorem C9_witness :
    dfEx.hasShelvesList = true ∧
    (∀ r ∈ dfEx.rows, r.bookshelves_list.Nodup) ∧
    (shelf_overlap_percentage dfEx "x" "x").1 = Except.ok 100 := by
  refine ⟨rfl, by decide, ?_⟩
  exact C9_thm dfEx "x" rfl (by decide) (mkRow "B" "b" none (some 4) ["x"])
    (by decide) (by decide)

/-- C8: no Query Engine operation changes the table: the frame component
returned after each call equals the frame before the call, for every table
and all arguments (the only write in the source, the My Rating coercion in
top_rated_books_on_shelf, lands on the fresh frame that pandas boolean
indexing returns). -/
theorem C8_thm (df : DF) (shelf1 shelf2 shelf : String) (n : ℕ) (only_read : Bool) :
    (shelf_overlap_percentage df shelf1 shelf2).2 = df ∧
    (average_pages_on_shelf df shelf only_read).2 = df ∧
    (get_shelf_books df shelf).2 = df ∧
    (top_rated_books_on_shelf df shelf n).2 = df ∧
    (reading_stats df).2 = df := by
  refine ⟨?_, ?_, ?_, ?_, ?_⟩
  · simp only [shelf_overlap_percentage]
    split <;> first | rfl | (split <;> rfl)
  · simp only [average_pages_on_shelf]
    split <;> first | rfl | (split <;> first | rfl | (split <;> rfl))
  · simp only [get_shelf_books]
    split <;> rfl
  · simp only [top_rated_books_on_shelf]
    split <;> rfl
  · simp only [reading_stats]
    split <;> rfl

theorem foldl_min_le_init (xs : List ℚ) : ∀ a : ℚ, xs.foldl min a ≤ a := by
  induction xs with
  | nil => intro a; exact le_refl a
  | cons x xs ih =>
    intro a
    exact le_trans (ih (min a x)) (min_le_left a x)

theorem foldl_min_le_mem (xs : List ℚ) : ∀ (a x : ℚ), x ∈ xs → xs.foldl min a ≤ x := by
  induction xs with
  | nil => intro a x hx; cases hx
  | cons y ys ih =>
    intro a x hx
    rcases List.mem_cons.mp hx with hx | hx
    · subst hx
      exact le_trans (foldl_min_le_init ys (min a x)) (min_le_right a x)
    · exact ih (min a y) x hx

theorem foldl_min_mem (xs : List ℚ) : ∀ a : ℚ, xs.foldl min a = a ∨ xs.foldl min a ∈ xs := by
  induction xs with
  | nil => intro a; exact Or.inl rfl
  | cons y ys ih =>
    intro a
    rcases ih (min a y) with h | h
    · rcases min_choice a y with h2 | h2
      · left
        rw [List.foldl_cons, h, h2]
      · right
        rw [List.foldl_cons, h, h2]
        exact List.mem_cons_self y ys
    · right
      exact List.mem_cons_of_mem y h

theorem foldl_max_le_init (xs : List ℚ) : ∀ a : ℚ, a ≤ xs.foldl max a := by
  induction xs with
  | nil => intro a; exact le_refl a
  | cons x xs ih =>
    intro a
    exact le_trans (le_max_left a x) (ih (max a x))

theorem foldl_max_le_mem (xs : List ℚ) : ∀ (a x : ℚ), x ∈ xs → x ≤ xs.foldl max a := by
  induction xs with
  | nil => intro a x hx; cases hx
  | cons y ys ih =>
    intro a x hx
    rcases List.mem_cons.mp hx with hx | hx
    · subst hx
      exact le_trans (le_max_right a x) (foldl_max_le_init ys (max a x))
    · exact ih (max a y) x hx

theorem foldl_max_mem (xs : List ℚ) : ∀ a : ℚ, xs.foldl max a = a ∨ xs.foldl max a ∈ xs := by
  induction xs with
  | nil => intro a; exact Or.inl rfl
  | cons y ys ih =>
    intro a
    rcases ih (max a y) with h | h
    · rcases max_choice a y with h2 | h2
      · left
        rw [List.foldl_cons, h, h2]
      · right
        rw [List.foldl_cons, h, h2]
        exact List.mem_cons_self y ys
    · right
      exact List.mem_cons_of_mem y h

theorem listMin_mem (l : List ℚ) (h : l ≠ []) : listMin l ∈ l := by
  match l with
  | [] => exact absurd rfl h
  | x :: xs =>
    rcases foldl_min_mem xs x with h2 | h2
    · rw [listMin, h2]
      exact List.mem_cons_self x xs
    · exact List.mem_cons_of_mem x h2

theorem listMin_le (l : List ℚ) (p : ℚ) (hp : p ∈ l) : listMin l ≤ p := by
  match l with
  | [] => cases hp
  | x :: xs =>
    rcases List.mem_cons.mp hp with h | h
    · subst h
      exact foldl_min_le_init xs p
    · exact foldl_min_le_mem xs x p h

theorem listMax_mem (l : List ℚ) (h : l ≠ []) : listMax l ∈ l := by
  match l with
  | [] => exact absurd rfl h
  | x :: xs =>
    rcases foldl_max_mem xs x with h2 | h2
    · rw [listMax, h2]
      exact List.mem_cons_self x xs
    · exact List.mem_cons_of_mem x h2

theorem listMax_le (l : List ℚ) (p : ℚ) (hp : p ∈ l) : p ≤ listMax l := by
  match l with
  | [] => cases hp
  | x :: xs =>
    rcases List.mem_cons.mp hp with h | h
    · subst h
      exact foldl_max_le_init xs p
    · exact foldl_max_le_mem xs x p h

/-- C5: average_pages_on_shelf returns (0, all-zero stats) on an empty
selection; average 0 with total_books equal to the selection size when no
selected record has a parseable page count; and otherwise the arithmetic
mean of the parseable page counts, their minimum, maximum, standard median
and sum, with total_books the selection size before page filtering. -/
theorem C5_thm (df : DF) (shelf : String) (only_read : Bool)
    (h : df.hasShelvesList = true) :
    (apShelfBooks df shelf only_read = [] →
      (average_pages_on_shelf df shelf only_read).1 =
        Except.ok (0, ⟨0, 0, 0, 0, 0⟩)) ∧
    (apShelfBooks df shelf only_read ≠ [] → apPages df shelf only_read = [] →
      (average_pages_on_shelf df shelf only_read).1 =
        Except.ok (0, ⟨0, 0, 0, (apShelfBooks df shelf only_read).length, 0⟩)) ∧
    (apPages df shelf only_read ≠ [] →
      ∃ avg st, (average_pages_on_shelf df shelf only_read).1 = Except.ok (avg, st) ∧
        avg = (apPages df shelf only_read).sum /
          ((apPages df shelf only_read).length : ℚ) ∧
        st.min_pages ∈ apPages df shelf only_read ∧
        (∀ p ∈ apPages df shelf only_read, st.min_pages ≤ p) ∧
        st.max_pages ∈ apPages df shelf only_read ∧
        (∀ p ∈ apPages df shelf only_read, p ≤ st.max_pages) ∧
        st.median_pages = listMedian (apPages df shelf only_read) ∧
        st.total_books = (apShelfBooks df shelf only_read).length ∧
        st.total_pages = (apPages df shelf only_read).sum) := by
  refine ⟨?_, ?_, ?_⟩
  · intro hsel
    simp [average_pages_on_shelf, h, hsel]
  · intro hsel hpages
    have hlen : ¬(apShelfBooks df shelf only_read).length = 0 := by
      simpa [List.length_eq_zero] using hsel
    have hpages2 : (apShelfBooks df shelf only_read).filterMap
        (fun r => to_numeric r.numberOfPages) = [] := hpages
    simp [average_pages_on_shelf, h, hlen, hpages2]
  · intro hpages
    have hsel : apShelfBooks df shelf only_read ≠ [] := by
      intro hsel
      apply hpages
      show (apShelfBooks df shelf only_read).filterMap
        (fun r => to_numeric r.numberOfPages) = []
      rw [hsel]
      rfl
    have hlen : ¬(apShelfBooks df shelf only_read).length = 0 := by
      simpa [List.length_eq_zero] using hsel
    have hplen : ¬(apPages df shelf only_read).length = 0 := by
      simpa [List.length_eq_zero] using hpages
    have hres : (average_pages_on_shelf df shelf only_read).1 =
        Except.ok ((apPages df shelf only_read).sum /
            ((apPages df shelf only_read).length : ℚ),
          ⟨listMin (apPages df shelf only_read), listMax (apPages df shelf only_read),
            listMedian (apPages df shelf only_read),
            (apShelfBooks df shelf only_read).length,
            (apPages df shelf only_read).sum⟩) := by
      have hplen2 : ¬((apShelfBooks df shelf only_read).filterMap
          (fun r => to_numeric r.numberOfPages)).length = 0 := hplen
      simp [average_pages_on_shelf, apPages, h, hlen, hplen2]
    exact ⟨_, _, hres, rfl, listMin_mem _ hpages, fun p hp => listMin_le _ p hp,
      listMax_mem _ hpages, fun p hp => listMax_le _ p hp, rfl, rfl, rfl⟩

/-- C5, witness at the spec scenario: two books on shelf x, one with 100
pages and one with a missing page count, give average 100, total_books 2
and total_pages 100. -/
theorem C5_witness :
    dfEx.hasShelvesList = true ∧ apPages dfEx "x" false ≠ [] ∧
    ∃ avg st, (average_pages_on_shelf dfEx "x" false).1 = Except.ok (avg, st) ∧
      avg = 100 ∧ st.total_books = 2 ∧ st.total_pages = 100 := by
  have hpg : apPages dfEx "x" false = [100] := by decide
  have hsel : (apShelfBooks dfEx "x" false).length = 2 := by decide
  refine ⟨rfl, by decide, ?_⟩
  obtain ⟨avg, st, heq, havg, hmin, hminle, hmax, hmaxle, hmed, htb, htp⟩ :=
    (C5_thm dfEx "x" false rfl).2.2 (by decide)
  refine ⟨avg, st, heq, ?_, ?_, ?_⟩
  · rw [havg, hpg]
    norm_num
  · rw [htb, hsel]
  · rw [htp, hpg]
    norm_num

theorem mem_ratedRatings_pos (df : DF) (q : ℚ) (hq : q ∈ ratedRatings df) : 0 < q := by
  unfold ratedRatings at hq
  have h2 := (List.mem_filter.mp hq).2
  simpa using h2

theorem vcsi_mem (l : List ℚ) (q : ℚ) (c : ℕ) :
    (q, c) ∈ value_counts_sort_index l ↔ q ∈ l ∧ c = l.count q := by
  unfold value_counts_sort_index
  rw [List.mem_map]
  constructor
  · rintro ⟨v, hv, heq⟩
    have hq : v = q := congrArg Prod.fst heq
    have hc : l.count v = c := congrArg Prod.snd heq
    subst hq
    refine ⟨?_, hc.symm⟩
    have hv2 : v ∈ l.dedup :=
      (List.perm_insertionSort (fun a b : ℚ => a ≤ b) l.dedup).mem_iff.mp hv
    exact List.mem_dedup.mp hv2
  · rintro ⟨hq, rfl⟩
    refine ⟨q, ?_, rfl⟩
    rw [(List.perm_insertionSort (fun a b : ℚ => a ≤ b) l.dedup).mem_iff]
    exact List.mem_dedup.mpr hq

theorem vcsi_sorted (l : List ℚ) :
    List.Chain' (fun a b : ℚ × ℕ => a.1 < b.1) (value_counts_sort_index l) := by
  unfold value_counts_sort_index
  apply List.Pairwise.chain'
  rw [List.pairwise_map]
  have hs : List.Pairwise (fun a b : ℚ => a ≤ b)
      (List.insertionSort (fun a b : ℚ => a ≤ b) l.dedup) :=
    List.sorted_insertionSort (fun a b : ℚ => a ≤ b) l.dedup
  have hn : (List.insertionSort (fun a b : ℚ => a ≤ b) l.dedup).Nodup :=
    ((List.perm_insertionSort (fun a b : ℚ => a ≤ b) l.dedup).nodup_iff).mpr
      (List.nodup_dedup l)
  have hcomb := hs.and hn
  exact hcomb.imp (fun hab => lt_of_le_of_ne hab.1 hab.2)

/-- C6: reading_stats reports percent_read as 100 times the number of read
records over the table size (0 on the empty table); avg_rating as the mean
of the positive ratings among read records, with no value when none is
rated; and rating_distribution as the count of each positive rating value
among read records, keys strictly ascending. -/
theorem C6_thm (df : DF) (h : df.hasShelvesList = true) :
    ∃ s, (reading_stats df).1 = Except.ok s ∧
      s.percent_read =
        (if df.rows.length = 0 then 0
         else 100 * ((readRows df).length : ℚ) / (df.rows.length : ℚ)) ∧
      (ratedRatings df = [] → s.avg_rating = none) ∧
      (ratedRatings df ≠ [] →
        s.avg_rating =
          some ((ratedRatings df).sum / ((ratedRatings df).length : ℚ))) ∧
      List.Chain' (fun a b : ℚ × ℕ => a.1 < b.1) s.rating_distribution ∧
      (∀ q c, (q, c) ∈ s.rating_distribution ↔
        (0 < q ∧ 0 < c ∧ c = (ratedRatings df).count q)) := by
  have hres : (reading_stats df).1 = Except.ok
      { total_books := df.rows.length
        books_read := (readRows df).length
        books_to_read := (toReadRows df).length
        avg_rating :=
          if (ratedRatings df).length = 0 then none
          else some ((ratedRatings df).sum / ((ratedRatings df).length : ℚ))
        rating_distribution := value_counts_sort_index (ratedRatings df)
        percent_read :=
          if 0 < df.rows.length then
            (((readRows df).length : ℚ) / (df.rows.length : ℚ)) * 100
          else 0 } := by
    simp [reading_stats, h]
  refine ⟨_, hres, ?_, ?_, ?_, ?_, ?_⟩
  · show (if 0 < df.rows.length then
        (((readRows df).length : ℚ) / (df.rows.length : ℚ)) * 100 else 0) = _
    rcases Nat.eq_zero_or_pos df.rows.length with h0 | h0
    · simp [h0]
    · have h1 : ¬df.rows.length = 0 := Nat.pos_iff_ne_zero.mp h0
      rw [if_pos h0, if_neg h1]
      ring
  · intro hr
    show (if (ratedRatings df).length = 0 then none else _) = none
    simp [hr]
  · intro hr
    have hlen : ¬(ratedRatings df).length = 0 := by
      simpa [List.length_eq_zero] using hr
    show (if (ratedRatings df).length = 0 then none else _) = _
    rw [if_neg hlen]
  · exact vcsi_sorted (ratedRatings df)
  · intro q c
    show (q, c) ∈ value_counts_sort_index (ratedRatings df) ↔ _
    rw [vcsi_mem]
    constructor
    · rintro ⟨hq, rfl⟩
      exact ⟨mem_ratedRatings_pos df q hq, List.count_pos_iff.mpr hq, rfl⟩
    · rintro ⟨hqpos, hcpos, rfl⟩
      exact ⟨List.count_pos_iff.mp hcpos, rfl⟩

/-- C6, witness at the concrete table: one of two records is read and rated
5, so percent_read is 50, avg_rating is 5 and the distribution holds the
pair of 5 and 1. -/
theorem C6_witness :
    dfEx.hasShelvesList = true ∧
    ∃ s, (reading_stats dfEx).1 = Except.ok s ∧
      s.percent_read = 50 ∧ s.avg_rating = some 5 ∧
      ((5 : ℚ), 1) ∈ s.rating_distribution := by
  obtain ⟨s, hres, hpct, havg0, havg, hchain, hmem⟩ := C6_thm dfEx rfl
  have hrr : ratedRatings dfEx = [5] := by decide
  refine ⟨rfl, s, hres, ?_, ?_, ?_⟩
  · rw [hpct]
    have h1 : (readRows dfEx).length = 1 := by decide
    have h2 : dfEx.rows.length = 2 := by decide
    rw [h1, h2]
    norm_num
  · have hne : ratedRatings dfEx ≠ [] := by
      rw [hrr]
      decide
    rw [havg hne, hrr]
    norm_num
  · refine (hmem 5 1).mpr ⟨by norm_num, by norm_num, ?_⟩
    rw [hrr]
    decide

end Goodreads
